import Mathlib

/-!
Verification of the model-serving core of the `lilith-compose` AI stack.

The development shallowly embeds the two services:

* `SpacyApi` — `src/ai-stack/spacy-api/app/main.py`: the model registry
  (`MODELS` / `SUPPORTED_LANGS`), the model loader (`load_nlp`), the lazy
  per-language model cache (`get_nlp` over the global `_nlp_cache` dict),
  and the `/ner` endpoint handler (`ner`).
* `FasttextApi` — `src/ai-stack/fasttext-api/app.py`: the `/detect` and
  `/batch-detect` endpoint handlers.

External collaborators (the spaCy library, the fastText library) are
parameters of the embedding: an abstract loader function stands for
`spacy.load`, an abstract prediction function stands for a loaded model.
Python's mutable state is threaded explicitly: every handler takes the
cache before the call and returns the cache after the call, together with
the trace of external loader / predictor invocations made during the call,
so that "the loader is invoked exactly once / never" is a statement about
that trace.
-/

namespace SpacyApi

/-- Kinds of Python exceptions raised by the spaCy service core:
`ValueError` (unsupported language, raised by `get_nlp`), `RuntimeError`
(model package missing, raised by `load_nlp`), `KeyError` (dict lookup
miss, raisable in principle by `MODELS[lang]`). -/
inductive PyError where
  | valueError (msg : String)
  | runtimeError (msg : String)
  | keyError
deriving Repr, DecidableEq

/-- The fixed language-code → spaCy-model-name table `MODELS` of
`app/main.py` (a Python dict with distinct keys, embedded as an
association list in insertion order). -/
def MODELS : List (String × String) :=
  [ ("en", "en_core_web_md"),
    ("fr", "fr_core_news_md"),
    ("de", "de_core_news_md"),
    ("nl", "nl_core_news_md"),
    ("ru", "ru_core_news_md"),
    ("ar", "xx_ent_wiki_sm"),
    ("ms", "xx_ent_wiki_sm") ]

/-- `SUPPORTED_LANGS = list(MODELS.keys())`. -/
def SUPPORTED_LANGS : List String := MODELS.map Prod.fst

/-- The single-quote character, used to render Python list reprs. -/
def pyQuote : String := String.singleton (Char.ofNat 39)

/-- Python `repr` of a list of strings, as interpolated into the
`ValueError` message of `get_nlp`. -/
def pyListRepr (xs : List String) : String :=
  "[" ++ String.intercalate ", " (xs.map (fun s => pyQuote ++ s ++ pyQuote)) ++ "]"

/-- The message of the `ValueError` raised by `get_nlp` for an
unsupported language code. -/
def unsupported_message (lang : String) : String :=
  "Unsupported language: " ++ lang ++ ". Supported: " ++ pyListRepr SUPPORTED_LANGS

/-- The message of the `RuntimeError` raised by `load_nlp` when
`spacy.load` fails with `OSError`. -/
def model_not_found_message (model_name : String) : String :=
  "Model " ++ model_name ++ " not found. Run: python -m spacy download " ++ model_name

/-- `load_nlp(lang)` of `app/main.py`. The external `spacy.load` is the
parameter `spacyLoad`, taking a model name and either returning a model of
the opaque type `M` or failing (its `OSError` failure mode, raised when
the model package is not installed or its files are missing). The second
component of the result is the trace of model names passed to
`spacy.load` during the call. -/
def load_nlp {M : Type} (spacyLoad : String → Except Unit M) (lang : String) :
    Except PyError M × List String :=
  match MODELS.lookup lang with
  | none => (Except.error PyError.keyError, [])
  | some model_name =>
    match spacyLoad model_name with
    | Except.error () =>
        (Except.error (PyError.runtimeError (model_not_found_message model_name)),
         [model_name])
    | Except.ok nlp => (Except.ok nlp, [model_name])

/-- The global `_nlp_cache` dict, embedded as an association list keyed by
language code (lookup takes the first match; `get_nlp` only ever inserts a
key that is absent, so keys stay distinct). -/
abbrev Cache (M : Type) := List (String × M)

/-- Outcome of one `get_nlp` call: the returned model or raised exception,
the cache after the call, and the trace of `spacy.load` invocations made
during the call. -/
structure CallResult (M : Type) where
  result : Except PyError M
  cache : Cache M
  loads : List String

/-- `get_nlp(lang)` of `app/main.py`: raise `ValueError` when `lang` is
not in `SUPPORTED_LANGS`; otherwise serve from `_nlp_cache`, loading via
`load_nlp` and storing on a miss. When `load_nlp` raises, the store does
not happen and the exception propagates. -/
def get_nlp {M : Type} (spacyLoad : String → Except Unit M) (cache : Cache M)
    (lang : String) : CallResult M :=
  if lang ∈ SUPPORTED_LANGS then
    match cache.lookup lang with
    | some nlp => ⟨Except.ok nlp, cache, []⟩
    | none =>
      match load_nlp spacyLoad lang with
      | (Except.ok nlp, ls) => ⟨Except.ok nlp, (lang, nlp) :: cache, ls⟩
      | (Except.error e, ls) => ⟨Except.error e, cache, ls⟩
  else
    ⟨Except.error (PyError.valueError (unsupported_message lang)), cache, []⟩

/-- Run a sequence of `get_nlp` calls (one per listed language code),
threading the cache, and collect the final cache, the concatenated
`spacy.load` trace, and the per-call results. -/
def run_get_nlp {M : Type} (spacyLoad : String → Except Unit M) :
    Cache M → List String → Cache M × List String × List (Except PyError M)
  | cache, [] => (cache, [], [])
  | cache, lang :: rest =>
    let r := get_nlp spacyLoad cache lang
    let rec0 := run_get_nlp spacyLoad r.cache rest
    (rec0.1, r.loads ++ rec0.2.1, r.result :: rec0.2.2)

theorem lookup_mem_keys {α β : Type} [BEq α] [LawfulBEq α]
    (l : List (α × β)) (a : α) (b : β)
    (h : l.lookup a = some b) : a ∈ l.map Prod.fst := by
  induction l with
  | nil => simp [List.lookup] at h
  | cons p t ih =>
    match p with
    | (k, v) =>
      rw [List.lookup] at h
      cases hk : a == k with
      | true =>
        have : a = k := eq_of_beq hk
        simp [this]
      | false =>
        simp only [hk] at h
        simp [ih h]

theorem mem_supported_of_lookup (lang name : String)
    (h : MODELS.lookup lang = some name) : lang ∈ SUPPORTED_LANGS :=
  lookup_mem_keys MODELS lang name h

theorem get_nlp_ok_mem {M : Type} (spacyLoad : String → Except Unit M)
    (cache : Cache M) (lang : String) (m : M)
    (h : (get_nlp spacyLoad cache lang).result = Except.ok m) :
    (get_nlp spacyLoad cache lang).cache.lookup lang = some m := by
  unfold get_nlp at *
  by_cases hs : lang ∈ SUPPORTED_LANGS
  · simp only [if_pos hs] at *
    cases hc : cache.lookup lang with
    | some nlp =>
      simp only [hc] at h ⊢
      cases h
      rfl
    | none =>
      simp only [hc] at h ⊢
      cases hl : load_nlp spacyLoad lang with
      | mk res ls =>
        cases res with
        | ok nlp =>
          simp only [hl] at h ⊢
          cases h
          simp [List.lookup]
        | error e => simp [hl] at h
  · simp [if_neg hs] at h

theorem get_nlp_hit {M : Type} (spacyLoad : String → Except Unit M)
    (cache : Cache M) (lang : String) (m : M)
    (hs : lang ∈ SUPPORTED_LANGS) (hc : cache.lookup lang = some m) :
    get_nlp spacyLoad cache lang = ⟨Except.ok m, cache, []⟩ := by
  unfold get_nlp
  simp [if_pos hs, hc]

theorem get_nlp_ok_supported {M : Type} (spacyLoad : String → Except Unit M)
    (cache : Cache M) (lang : String) (m : M)
    (h : (get_nlp spacyLoad cache lang).result = Except.ok m) :
    lang ∈ SUPPORTED_LANGS := by
  by_cases hs : lang ∈ SUPPORTED_LANGS
  · exact hs
  · unfold get_nlp at h
    simp [if_neg hs] at h

theorem get_nlp_cache_stable {M : Type}
    (spacyLoad spacyLoad2 : String → Except Unit M)
    (cache : Cache M) (lang : String) (m : M)
    (h : (get_nlp spacyLoad cache lang).result = Except.ok m) (n : Nat) :
    run_get_nlp spacyLoad2 (get_nlp spacyLoad cache lang).cache
        (List.replicate n lang) =
      ((get_nlp spacyLoad cache lang).cache, [],
        List.replicate n (Except.ok m)) := by
  have hs := get_nlp_ok_supported spacyLoad cache lang m h
  have hmem := get_nlp_ok_mem spacyLoad cache lang m h
  induction n with
  | zero => simp [run_get_nlp]
  | succ k ih =>
    rw [List.replicate_succ]
    unfold run_get_nlp
    rw [get_nlp_hit spacyLoad2 _ lang m hs hmem]
    simp only [ih]
    simp [List.replicate_succ]

/-- C1: once `get_nlp` has succeeded for a language code, every
subsequent call for the same code returns the identical cached model and
never invokes the model loader again: the first successful call from a
cache without the key invokes `spacy.load` exactly once, and any number
of further calls — even under an arbitrary (differently instrumented)
loader — return the same model with an empty load trace and the cache
unchanged. -/
theorem getOrLoad_cache_hit_no_reload {M : Type}
    (spacyLoad spacyLoad2 : String → Except Unit M)
    (cache : Cache M) (lang name : String) (m : M) (n : Nat)
    (hname : MODELS.lookup lang = some name)
    (habs : cache.lookup lang = none)
    (hok : spacyLoad name = Except.ok m) :
    get_nlp spacyLoad cache lang = ⟨Except.ok m, (lang, m) :: cache, [name]⟩ ∧
    run_get_nlp spacyLoad2 (get_nlp spacyLoad cache lang).cache
        (List.replicate n lang) =
      ((get_nlp spacyLoad cache lang).cache, [],
        List.replicate n (Except.ok m)) := by
  have hs : lang ∈ SUPPORTED_LANGS := mem_supported_of_lookup lang name hname
  have hfirst : get_nlp spacyLoad cache lang =
      ⟨Except.ok m, (lang, m) :: cache, [name]⟩ := by
    unfold get_nlp load_nlp
    simp [if_pos hs, habs, hname, hok]
  refine ⟨hfirst, ?_⟩
  apply get_nlp_cache_stable
  rw [hfirst]

theorem getOrLoad_cache_hit_no_reload_witness :
    get_nlp (fun _ => Except.ok 7) ([] : Cache Nat) "en" =
      ⟨Except.ok 7, [("en", 7)], ["en_core_web_md"]⟩ ∧
    run_get_nlp (fun _ => Except.ok 99)
        (get_nlp (fun _ => Except.ok 7) ([] : Cache Nat) "en").cache
        (List.replicate 3 "en") =
      ((get_nlp (fun _ => Except.ok 7) ([] : Cache Nat) "en").cache, [],
        List.replicate 3 (Except.ok 7)) :=
  getOrLoad_cache_hit_no_reload (fun _ => Except.ok 7) (fun _ => Except.ok 99)
    [] "en" "en_core_web_md" 7 3 (by decide) rfl rfl

/-- C2: for a language code outside the registry, `get_nlp` raises
`ValueError` (the unsupported-language message), never invokes the model
loader (empty load trace), and leaves the cache unchanged. -/
theorem getOrLoad_unsupported {M : Type} (spacyLoad : String → Except Unit M)
    (cache : Cache M) (lang : String) (h : lang ∉ SUPPORTED_LANGS) :
    get_nlp spacyLoad cache lang =
      ⟨Except.error (PyError.valueError (unsupported_message lang)), cache, []⟩ := by
  unfold get_nlp
  simp [if_neg h]

theorem getOrLoad_unsupported_witness :
    get_nlp (fun _ => Except.ok 0) ([] : Cache Nat) "zz" =
      ⟨Except.error (PyError.valueError (unsupported_message "zz")), [], []⟩ :=
  getOrLoad_unsupported (fun _ => Except.ok 0) [] "zz" (by decide)

/-- C3: when the loader fails during a `get_nlp` miss, the call raises and
the cache is unchanged (the language stays absent, no failure is cached);
a later call for the same language under a loader that now succeeds
returns the loaded model and leaves the cache entry loaded. -/
theorem getOrLoad_failure_then_retry {M : Type}
    (spacyLoad1 spacyLoad2 : String → Except Unit M)
    (cache : Cache M) (lang name : String) (m : M)
    (hname : MODELS.lookup lang = some name)
    (habs : cache.lookup lang = none)
    (hfail : spacyLoad1 name = Except.error ())
    (hok : spacyLoad2 name = Except.ok m) :
    get_nlp spacyLoad1 cache lang =
      ⟨Except.error (PyError.runtimeError (model_not_found_message name)),
        cache, [name]⟩ ∧
    get_nlp spacyLoad2 (get_nlp spacyLoad1 cache lang).cache lang =
      ⟨Except.ok m, (lang, m) :: cache, [name]⟩ ∧
    (get_nlp spacyLoad2 (get_nlp spacyLoad1 cache lang).cache lang).cache.lookup
        lang = some m := by
  have hs : lang ∈ SUPPORTED_LANGS := mem_supported_of_lookup lang name hname
  have h1 : get_nlp spacyLoad1 cache lang =
      ⟨Except.error (PyError.runtimeError (model_not_found_message name)),
        cache, [name]⟩ := by
    unfold get_nlp load_nlp
    simp [if_pos hs, habs, hname, hfail]
  have h2 : get_nlp spacyLoad2 (get_nlp spacyLoad1 cache lang).cache lang =
      ⟨Except.ok m, (lang, m) :: cache, [name]⟩ := by
    rw [h1]
    unfold get_nlp load_nlp
    simp [if_pos hs, habs, hname, hok]
  refine ⟨h1, h2, ?_⟩
  rw [h2]
  simp [List.lookup]

theorem getOrLoad_failure_then_retry_witness :
    get_nlp (fun _ => Except.error ()) ([] : Cache Nat) "fr" =
      ⟨Except.error (PyError.runtimeError (model_not_found_message "fr_core_news_md")),
        [], ["fr_core_news_md"]⟩ ∧
    get_nlp (fun _ => Except.ok 5)
        (get_nlp (fun _ => Except.error ()) ([] : Cache Nat) "fr").cache "fr" =
      ⟨Except.ok 5, [("fr", 5)], ["fr_core_news_md"]⟩ ∧
    (get_nlp (fun _ => Except.ok 5)
        (get_nlp (fun _ => Except.error ()) ([] : Cache Nat) "fr").cache
        "fr").cache.lookup "fr" = some 5 :=
  getOrLoad_failure_then_retry (fun _ => Except.error ()) (fun _ => Except.ok 5)
    [] "fr" "fr_core_news_md" 5 (by decide) rfl rfl rfl

/-- One entity span as reported by the underlying spaCy model: the fields
of a spaCy `Span` read by the `ner` handler (`e.text`, `e.label_`,
`e.start_char`, `e.end_char`). -/
structure RawEnt where
  text : String
  label_ : String
  start_char : Nat
  end_char : Nat
deriving Repr, DecidableEq

/-- A loaded spaCy pipeline, as used by the `ner` handler: calling it on a
text produces a document whose `.ents` is a list of spans. -/
abbrev SpacyModel := String → List RawEnt

/-- The `Entity` response record of `app/main.py` (`end` is a Lean keyword,
rendered `end_`). -/
structure Entity where
  text : String
  label : String
  start : Nat
  end_ : Nat
deriving Repr, DecidableEq

/-- The field-for-field conversion of a reported span into an `Entity`
record, as written in the comprehension of the `ner` handler:
`Entity(text=e.text, label=e.label_, start=e.start_char, end=e.end_char)`. -/
def entityOfRaw (e : RawEnt) : Entity :=
  { text := e.text, label := e.label_, start := e.start_char, end_ := e.end_char }

/-- The entity-list comprehension of the `ner` handler (the inference
adapter): `[Entity(...) for e in doc.ents]` with `doc = nlp(text)`. -/
def infer (nlp : SpacyModel) (text : String) : List Entity :=
  (nlp text).map entityOfRaw

/-- Contract of the external spaCy library: every entity reported on a
document is a non-empty span of the document's text, so its character
offsets satisfy `start_char < end_char ≤ length of the text` (spaCy
entities cover at least one token and tokens are non-empty). -/
def SpacyEntsWF (nlp : SpacyModel) : Prop :=
  ∀ text e, e ∈ nlp text → e.start_char < e.end_char ∧ e.end_char ≤ text.length

/-- C6: on empty input text the inference adapter returns an empty entity
list (and, being a total function of the model's output, raises no
error): no well-formed span can exist inside a length-0 text. -/
theorem infer_empty_text (nlp : SpacyModel) (h : SpacyEntsWF nlp) :
    infer nlp "" = [] := by
  have hnil : nlp "" = [] := by
    cases he : nlp "" with
    | nil => rfl
    | cons e rest =>
      have hmem : e ∈ nlp "" := by rw [he]; exact List.mem_cons_self e rest
      have := h "" e hmem
      have hlen : ("" : String).length = 0 := rfl
      omega
  unfold infer
  rw [hnil]
  rfl

theorem infer_empty_text_witness : infer (fun _ => []) "" = [] :=
  infer_empty_text (fun _ => []) (fun _ e he => absurd he (List.not_mem_nil e))

/-- C7: the adapter output corresponds index-by-index to the model's
reported spans (same length, same order, fields copied verbatim), and —
under the spaCy span contract — every returned entity satisfies
`start ≤ end` with both offsets within `[0, length of the text]`. -/
theorem infer_preserves_spans (nlp : SpacyModel) (text : String)
    (h : SpacyEntsWF nlp) :
    (infer nlp text).length = (nlp text).length ∧
    (∀ i : Nat, (infer nlp text)[i]? = ((nlp text)[i]?).map entityOfRaw) ∧
    (∀ ent ∈ infer nlp text,
      ent.start ≤ ent.end_ ∧ ent.end_ ≤ text.length) := by
  refine ⟨by simp [infer], fun i => by simp [infer], ?_⟩
  intro ent hent
  unfold infer at hent
  rcases List.mem_map.mp hent with ⟨e, hmem, hconv⟩
  have hwf := h text e hmem
  rw [← hconv]
  exact ⟨Nat.le_of_lt hwf.1, hwf.2⟩

/-- A concrete well-formed stub model: reports the span `[0, 5)` labelled
`GREETING` on any text of length at least 5, nothing otherwise. -/
def greetingModel : SpacyModel :=
  fun t => if 5 ≤ t.length then [⟨"Hello", "GREETING", 0, 5⟩] else []

theorem greetingModel_wf : SpacyEntsWF greetingModel := by
  intro text e he
  unfold greetingModel at he
  by_cases h5 : 5 ≤ text.length
  · rw [if_pos h5] at he
    have : e = (⟨"Hello", "GREETING", 0, 5⟩ : RawEnt) := by simpa using he
    subst this
    exact ⟨by decide, h5⟩
  · rw [if_neg h5] at he
    exact absurd he (List.not_mem_nil e)

theorem infer_preserves_spans_witness :
    (infer greetingModel "Hello world").length =
      (greetingModel "Hello world").length ∧
    (∀ i : Nat,
      (infer greetingModel "Hello world")[i]? =
      ((greetingModel "Hello world")[i]?).map entityOfRaw) ∧
    (∀ ent ∈ infer greetingModel "Hello world",
      ent.start ≤ ent.end_ ∧ ent.end_ ≤ ("Hello world" : String).length) :=
  infer_preserves_spans greetingModel "Hello world" greetingModel_wf

/-- The request body of the `/ner` endpoint. -/
structure NERRequest where
  text : String
  lang : String

/-- The response body of the `/ner` endpoint. -/
structure NERResponse where
  text : String
  lang : String
  entities : List Entity

/-- How a `ner` call can fail: an `HTTPException` raised by its handler
(`400` for `ValueError`, `500` for `RuntimeError`), or any other Python
exception propagating uncaught out of the handler. -/
inductive NerFailure where
  | http (status_code : Nat) (detail : String)
  | uncaught (e : PyError)

/-- The `ner` endpoint handler of `app/main.py`: resolve the model through
`get_nlp` (translating `ValueError` to HTTP 400 and `RuntimeError` to HTTP
500), run the pipeline on the request text, and shape the response. The
cache is threaded and the `spacy.load` trace reported, as in `get_nlp`. -/
def ner (spacyLoad : String → Except Unit SpacyModel) (cache : Cache SpacyModel)
    (req : NERRequest) :
    Except NerFailure NERResponse × Cache SpacyModel × List String :=
  let r := get_nlp spacyLoad cache req.lang
  match r.result with
  | Except.ok nlp =>
      (Except.ok { text := req.text, lang := req.lang,
                   entities := infer nlp req.text }, r.cache, r.loads)
  | Except.error (PyError.valueError msg) =>
      (Except.error (NerFailure.http 400 msg), r.cache, r.loads)
  | Except.error (PyError.runtimeError msg) =>
      (Except.error (NerFailure.http 500 msg), r.cache, r.loads)
  | Except.error e => (Except.error (NerFailure.uncaught e), r.cache, r.loads)

/-- Run a sequence of `/ner` requests, threading the cache; returns the
final cache. -/
def run_ner (spacyLoad : String → Except Unit SpacyModel) :
    Cache SpacyModel → List NERRequest → Cache SpacyModel
  | cache, [] => cache
  | cache, req :: rest => run_ner spacyLoad (ner spacyLoad cache req).2.1 rest

theorem get_nlp_preserves_entry {M : Type} (spacyLoad : String → Except Unit M)
    (cache : Cache M) (lang lang2 : String) (m : M)
    (h : cache.lookup lang = some m) :
    (get_nlp spacyLoad cache lang2).cache.lookup lang = some m := by
  unfold get_nlp
  by_cases hs : lang2 ∈ SUPPORTED_LANGS
  · simp only [if_pos hs]
    cases hc : cache.lookup lang2 with
    | some nlp => exact h
    | none =>
      cases hl : load_nlp spacyLoad lang2 with
      | mk res ls =>
        cases res with
        | ok nlp =>
          simp only []
          have hne : (lang == lang2) = false := by
            cases hb : lang == lang2 with
            | true =>
              have : lang = lang2 := eq_of_beq hb
              rw [this] at h
              rw [h] at hc
              cases hc
            | false => rfl
          simp [List.lookup, hne, h]
        | error e => exact h
  · simp only [if_neg hs]
    exact h

theorem ner_preserves_entry (spacyLoad : String → Except Unit SpacyModel)
    (cache : Cache SpacyModel) (req : NERRequest) (lang : String) (m : SpacyModel)
    (h : cache.lookup lang = some m) :
    (ner spacyLoad cache req).2.1.lookup lang = some m := by
  unfold ner
  have := get_nlp_preserves_entry spacyLoad cache lang req.lang m h
  cases hr : (get_nlp spacyLoad cache req.lang).result with
  | ok nlp => simpa [hr] using this
  | error e =>
    cases e with
    | valueError msg => simpa [hr] using this
    | runtimeError msg => simpa [hr] using this
    | keyError => simpa [hr] using this

/-- C8: the handler never mutates a cached model: once the cache maps a
language code to a model handle, that exact handle is still what the
cache maps the code to after any number of further `/ner` requests
(`infer` is a pure function of the handle and the text; the only cache
write in the core is `get_nlp`'s store of an absent key). -/
theorem ner_model_read_only (spacyLoad : String → Except Unit SpacyModel)
    (cache : Cache SpacyModel) (reqs : List NERRequest) (lang : String)
    (m : SpacyModel) (h : cache.lookup lang = some m) :
    (run_ner spacyLoad cache reqs).lookup lang = some m := by
  induction reqs generalizing cache with
  | nil => exact h
  | cons req rest ih =>
    unfold run_ner
    exact ih _ (ner_preserves_entry spacyLoad cache req lang m h)

theorem ner_model_read_only_witness :
    (run_ner (fun _ => Except.error ())
      ([("en", fun _ => [])] : Cache SpacyModel)
      [⟨"Hello world", "en"⟩, ⟨"Hallo", "de"⟩, ⟨"", "en"⟩]).lookup "en" =
      some (fun _ => []) :=
  ner_model_read_only (fun _ => Except.error ()) [("en", fun _ => [])]
    [⟨"Hello world", "en"⟩, ⟨"Hallo", "de"⟩, ⟨"", "en"⟩] "en" (fun _ => []) rfl

/-! ### Interleaved execution of `get_nlp`

The `/ner` endpoint is a plain `def` handler, so the surrounding framework
runs concurrent requests on separate worker threads, and `get_nlp` guards
its shared dict with no lock. The body of `get_nlp` is decomposed into its
atomic steps as executed by one thread: first the supported-language check
together with the `lang not in _nlp_cache` read (dict operations are
atomic), then — on a miss — the `load_nlp` call followed by the store
`_nlp_cache[lang] = ...` (the external load can be interleaved with other
threads; the store happens when it returns). A scheduler picks which
thread steps next. -/

/-- Program counter of one thread running `get_nlp(lang)`. -/
inductive TState (M : Type) where
  | start
  | loading (name : String)
  | finished (r : Except PyError M)

/-- One atomic step of a thread inside `get_nlp(lang)`, acting on the
shared cache; also reports the `spacy.load` invocations the step makes. -/
def thread_step {M : Type} (spacyLoad : String → Except Unit M) (lang : String)
    (cache : Cache M) (t : TState M) : Cache M × TState M × List String :=
  match t with
  | TState.start =>
    if lang ∈ SUPPORTED_LANGS then
      match cache.lookup lang with
      | some nlp => (cache, TState.finished (Except.ok nlp), [])
      | none =>
        match MODELS.lookup lang with
        | some name => (cache, TState.loading name, [])
        | none => (cache, TState.finished (Except.error PyError.keyError), [])
    else
      (cache,
       TState.finished (Except.error (PyError.valueError (unsupported_message lang))),
       [])
  | TState.loading name =>
    match spacyLoad name with
    | Except.ok nlp => ((lang, nlp) :: cache, TState.finished (Except.ok nlp), [name])
    | Except.error () =>
        (cache,
         TState.finished (Except.error (PyError.runtimeError (model_not_found_message name))),
         [name])
  | TState.finished r => (cache, TState.finished r, [])

/-- Shared state of a group of threads all running `get_nlp(lang)`: the
shared cache, each thread's program counter, and the accumulated
`spacy.load` trace. -/
structure Sys (M : Type) where
  cache : Cache M
  threads : List (TState M)
  loads : List String

/-- Let thread `i` take one step (out-of-range indices are no-ops). -/
def sys_step {M : Type} (spacyLoad : String → Except Unit M) (lang : String)
    (s : Sys M) (i : Nat) : Sys M :=
  match s.threads[i]? with
  | none => s
  | some t =>
    let r := thread_step spacyLoad lang s.cache t
    { cache := r.1, threads := s.threads.set i r.2.1, loads := s.loads ++ r.2.2 }

/-- Run the threads under a given schedule (list of thread indices). -/
def run_sched {M : Type} (spacyLoad : String → Except Unit M) (lang : String) :
    Sys M → List Nat → Sys M
  | s, [] => s
  | s, i :: rest => run_sched spacyLoad lang (sys_step spacyLoad lang s i) rest

/-- Sanity of the interleaving model: a single thread run to completion in
isolation computes exactly what the sequential `get_nlp` computes — same
final cache, same result, same `spacy.load` trace. -/
theorem single_thread_refines_get_nlp {M : Type}
    (spacyLoad : String → Except Unit M) (cache : Cache M) (lang : String) :
    run_sched spacyLoad lang ⟨cache, [TState.start], []⟩ [0, 0] =
      ⟨(get_nlp spacyLoad cache lang).cache,
       [TState.finished (get_nlp spacyLoad cache lang).result],
       (get_nlp spacyLoad cache lang).loads⟩ := by
  unfold run_sched sys_step thread_step get_nlp load_nlp
  by_cases hs : lang ∈ SUPPORTED_LANGS
  · simp only [if_pos hs]
    cases hc : cache.lookup lang with
    | some nlp => simp [hc, run_sched, sys_step, thread_step]
    | none =>
      simp only [hc]
      cases hn : MODELS.lookup lang with
      | some name =>
        simp only [hn]
        cases hl : spacyLoad name with
        | ok nlp => simp [run_sched, sys_step, thread_step, hl]
        | error u => cases u; simp [run_sched, sys_step, thread_step, hl]
      | none => simp [hn, run_sched, sys_step, thread_step]
  · simp [if_neg hs, run_sched, sys_step, thread_step]

/-- C4 (refuted — the code has no lock): two threads both call
`get_nlp("en")` on the empty cache under a loader that always succeeds;
under the schedule in which both threads pass the `lang not in _nlp_cache`
check before either load returns, both threads run to completion, both
obtain a model — and `spacy.load` is invoked twice for the same language,
violating the at-most-one-load-per-language guarantee (the second store
also overwrites the first cache entry). -/
theorem get_nlp_concurrent_double_load :
    (run_sched (fun _ => Except.ok 0) "en"
        (⟨[], [TState.start, TState.start], []⟩ : Sys Nat) [0, 1, 0, 1]) =
      ⟨[("en", 0), ("en", 0)],
       [TState.finished (Except.ok 0), TState.finished (Except.ok 0)],
       ["en_core_web_md", "en_core_web_md"]⟩ ∧
    (run_sched (fun _ => Except.ok 0) "en"
        (⟨[], [TState.start, TState.start], []⟩ : Sys Nat) [0, 1, 0, 1]).loads.length
      = 2 := by
  constructor
  · rfl
  · rfl

/-- C5: when the backing package of a model identifier is not installed or
its files are missing (the `OSError` failure of `spacy.load`), `load_nlp`
raises a `RuntimeError` whose message carries the model identifier and the
actionable remediation hint (`Run: python -m spacy download <identifier>`),
and invokes the external loader exactly once — no internal retry. -/
theorem load_nlp_model_unavailable {M : Type} (spacyLoad : String → Except Unit M)
    (lang name : String)
    (hname : MODELS.lookup lang = some name)
    (hfail : spacyLoad name = Except.error ()) :
    load_nlp spacyLoad lang =
      (Except.error (PyError.runtimeError
        ("Model " ++ name ++ " not found. Run: python -m spacy download " ++ name)),
       [name]) := by
  unfold load_nlp
  simp [hname, hfail, model_not_found_message]

theorem load_nlp_model_unavailable_witness :
    load_nlp (fun _ => (Except.error () : Except Unit Nat)) "de" =
      (Except.error (PyError.runtimeError
        ("Model " ++ "de_core_news_md" ++
          " not found. Run: python -m spacy download " ++ "de_core_news_md")),
       ["de_core_news_md"]) :=
  load_nlp_model_unavailable (fun _ => Except.error ()) "de" "de_core_news_md"
    (by decide) rfl

end SpacyApi

namespace FasttextApi

/-- Python `str.isspace()` for one character — the set `str.strip()`
strips (CPython's Unicode whitespace table): tab through carriage return
(U+0009–U+000D), the separators U+001C–U+001F, space, next line U+0085,
no-break space U+00A0, ogham space mark U+1680, the U+2000–U+200A spaces,
line separator U+2028, paragraph separator U+2029, narrow no-break space
U+202F, medium mathematical space U+205F, and ideographic space U+3000. -/
def pyIsSpace (c : Char) : Bool :=
  let n := c.toNat
  (0x09 ≤ n && n ≤ 0x0D) || n == 0x20 || (0x1C ≤ n && n ≤ 0x1F) ||
    n == 0x85 || n == 0xA0 || n == 0x1680 ||
    (0x2000 ≤ n && n ≤ 0x200A) || n == 0x2028 || n == 0x2029 ||
    n == 0x202F || n == 0x205F || n == 0x3000

/-- Python's `not text.strip()`: true exactly when the text is empty or
consists only of whitespace. -/
def stripIsEmpty (s : String) : Bool := s.toList.all pyIsSpace

/-- Python `str.replace` on character lists: replace every non-overlapping
occurrence of `old` left to right. Structural recursion on a fuel counter;
every call site passes a non-empty `old` and fuel equal to the input
length, and each step consumes at least one character and one unit of
fuel, so the fuel never runs out before the input does. -/
def replaceFuel (old new : List Char) : Nat → List Char → List Char
  | _, [] => []
  | 0, s => s
  | Nat.succ fuel, c :: rest =>
    if old ≠ [] ∧ old.isPrefixOf (c :: rest) then
      new ++ replaceFuel old new fuel ((c :: rest).drop old.length)
    else
      c :: replaceFuel old new fuel rest

/-- Python `s.replace(old, new)` for non-empty `old`. -/
def pyReplace (s old new : String) : String :=
  String.mk (replaceFuel old.toList new.toList s.toList.length s.toList)

/-- A loaded fastText model, as used by the handlers: `predict(text, k)`
returns a pair of parallel lists (labels, confidences). Confidence values
are opaque (`C`); the handlers only shuffle them. -/
abbrev FTModel (C : Type) := String → Int → List String × List C

/-- Python `zip(xs, ys, strict=True)` as consumed whole by a list
comprehension: the paired list, or `ValueError` when the lengths differ. -/
def zipStrict {α β : Type} : List α → List β → Except Unit (List (α × β))
  | [], [] => Except.ok []
  | a :: as0, b :: bs0 =>
    match zipStrict as0 bs0 with
    | Except.ok ps => Except.ok ((a, b) :: ps)
    | Except.error () => Except.error ()
  | _, _ => Except.error ()

/-- One prediction record of the response: `lang.replace("__label__", "")`
plus the confidence (`float(conf)` is the identity on the value). -/
structure LanguageDetection (C : Type) where
  language : String
  confidence : C

/-- Response body of `/detect`; each item of the `/batch-detect` response
has the same single-field shape. -/
structure DetectionResponse (C : Type) where
  predictions : List (LanguageDetection C)

/-- How a fastText handler call ends when it does not return normally: an
`HTTPException` raised by the handler itself, or the `ValueError` of
`zip(..., strict=True)` propagating uncaught. -/
inductive FTFailure where
  | http (status_code : Nat) (detail : String)
  | valueError
deriving Repr, DecidableEq

/-- The `__label__` tag removal applied to every predicted label. -/
def stripLabelTag (l : String) : String := pyReplace l "__label__" ""

/-- The `/detect` handler of `app.py`: 503 when the model is not loaded,
400 on empty/whitespace-only text, 400 on `k` outside `[1, 10]`, otherwise
one `model.predict` call on the newline-cleaned text. The second component
is the trace of `(text, k)` arguments passed to `model.predict`. -/
def detect_language {C : Type} (model : Option (FTModel C)) (text : String)
    (k : Int) : Except FTFailure (DetectionResponse C) × List (String × Int) :=
  match model with
  | none => (Except.error (FTFailure.http 503 "Model not loaded"), [])
  | some f =>
    if stripIsEmpty text then
      (Except.error (FTFailure.http 400 "Text cannot be empty"), [])
    else if k < 1 ∨ k > 10 then
      (Except.error (FTFailure.http 400 "k must be between 1 and 10"), [])
    else
      let cleaned := pyReplace text "\n" " "
      let p := f cleaned k
      let languages := p.1.map stripLabelTag
      match zipStrict languages p.2 with
      | Except.ok pairs =>
          (Except.ok ⟨pairs.map (fun x => ⟨x.1, x.2⟩)⟩, [(cleaned, k)])
      | Except.error () => (Except.error FTFailure.valueError, [(cleaned, k)])

/-- The per-text loop of the `/batch-detect` handler: a blank text gets
`{"predictions": []}` without touching the model; any other text is
predicted individually; a strict-zip length mismatch raises `ValueError`
and aborts the remaining iterations. -/
def batch_loop {C : Type} (f : FTModel C) (k : Int) :
    List String → Except Unit (List (DetectionResponse C)) × List (String × Int)
  | [] => (Except.ok [], [])
  | text :: rest =>
    if stripIsEmpty text then
      let r := batch_loop f k rest
      (r.1.map (fun l => ⟨[]⟩ :: l), r.2)
    else
      let cleaned := pyReplace text "\n" " "
      let p := f cleaned k
      let languages := p.1.map stripLabelTag
      match zipStrict languages p.2 with
      | Except.error () => (Except.error (), [(cleaned, k)])
      | Except.ok pairs =>
        let r := batch_loop f k rest
        (r.1.map (fun l => (⟨pairs.map (fun x => ⟨x.1, x.2⟩)⟩ : DetectionResponse C) :: l),
         (cleaned, k) :: r.2)

/-- The `/batch-detect` handler of `app.py`: 503 when the model is not
loaded, 400 on an empty text list, 400 on more than 100 texts, 400 on `k`
outside `[1, 10]`, otherwise the per-text loop. -/
def batch_detect_language {C : Type} (model : Option (FTModel C))
    (texts : List String) (k : Int) :
    Except FTFailure (List (DetectionResponse C)) × List (String × Int) :=
  match model with
  | none => (Except.error (FTFailure.http 503 "Model not loaded"), [])
  | some f =>
    if texts.isEmpty then
      (Except.error (FTFailure.http 400 "Texts list cannot be empty"), [])
    else if texts.length > 100 then
      (Except.error (FTFailure.http 400 "Maximum 100 texts per batch"), [])
    else if k < 1 ∨ k > 10 then
      (Except.error (FTFailure.http 400 "k must be between 1 and 10"), [])
    else
      match batch_loop f k texts with
      | (Except.ok rs, tr) => (Except.ok rs, tr)
      | (Except.error (), tr) => (Except.error FTFailure.valueError, tr)

/-- The response a single successful prediction is shaped into: predict on
the newline-cleaned text, strip the `__label__` tags, pair labels with
confidences. -/
def formatPrediction {C : Type} (f : FTModel C) (k : Int) (text : String) :
    DetectionResponse C :=
  let p := f (pyReplace text "\n" " ") k
  ⟨((p.1.map stripLabelTag).zip p.2).map (fun x => ⟨x.1, x.2⟩)⟩

theorem zipStrict_eq_zip {α β : Type} :
    ∀ (as0 : List α) (bs0 : List β), as0.length = bs0.length →
      zipStrict as0 bs0 = Except.ok (as0.zip bs0) := by
  intro as0
  induction as0 with
  | nil =>
    intro bs0 h
    cases bs0 with
    | nil => rfl
    | cons b bs1 => simp at h
  | cons a as1 ih =>
    intro bs0 h
    cases bs0 with
    | nil => simp at h
    | cons b bs1 =>
      simp only [List.length_cons, Nat.succ.injEq] at h
      unfold zipStrict
      rw [ih bs1 h]
      rfl

/-- C9: for the `/detect` endpoint with the model loaded, an empty or
whitespace-only text yields HTTP 400 without invoking `predict`; a `k`
outside `[1, 10]` yields HTTP 400 without invoking `predict`; in every
other case `predict` is invoked exactly once, on the newline-cleaned
text. -/
theorem detect_validation {C : Type} (f : FTModel C) (text : String) (k : Int) :
    (stripIsEmpty text = true →
      detect_language (some f) text k =
        (Except.error (FTFailure.http 400 "Text cannot be empty"), [])) ∧
    (stripIsEmpty text = false → (k < 1 ∨ k > 10) →
      detect_language (some f) text k =
        (Except.error (FTFailure.http 400 "k must be between 1 and 10"), [])) ∧
    (stripIsEmpty text = false → ¬(k < 1 ∨ k > 10) →
      (detect_language (some f) text k).2 = [(pyReplace text "\n" " ", k)]) := by
  refine ⟨?_, ?_, ?_⟩
  · intro hblank
    unfold detect_language
    simp [hblank]
  · intro hblank hk
    unfold detect_language
    simp [hblank, hk]
  · intro hblank hk
    unfold detect_language
    simp only [hblank, Bool.false_eq_true, if_false, if_neg hk]
    cases hz : zipStrict ((f (pyReplace text "\n" " ") k).1.map stripLabelTag)
        (f (pyReplace text "\n" " ") k).2 with
    | ok pairs => simp [hz]
    | error u => cases u; simp [hz]

theorem detect_validation_witness :
    detect_language (some (fun _ _ => (["__label__en"], [(1 : Nat)]))) "  " 1 =
      (Except.error (FTFailure.http 400 "Text cannot be empty"), []) ∧
    detect_language (some (fun _ _ => (["__label__en"], [(1 : Nat)]))) "hi" 0 =
      (Except.error (FTFailure.http 400 "k must be between 1 and 10"), []) ∧
    (detect_language (some (fun _ _ => (["__label__en"], [(1 : Nat)]))) "hi" 1).2 =
      [(pyReplace "hi" "\n" " ", 1)] :=
  ⟨(detect_validation (fun _ _ => (["__label__en"], [(1 : Nat)])) "  " 1).1 rfl,
   (detect_validation (fun _ _ => (["__label__en"], [(1 : Nat)])) "hi" 0).2.1 rfl
     (Or.inl (by decide)),
   (detect_validation (fun _ _ => (["__label__en"], [(1 : Nat)])) "hi" 1).2.2 rfl
     (by decide)⟩

theorem batch_loop_spec {C : Type} (f : FTModel C) (k : Int)
    (hwf : ∀ t j, ((f t j).1).length = ((f t j).2).length) :
    ∀ texts : List String,
      batch_loop f k texts =
        (Except.ok (texts.map (fun t =>
            if stripIsEmpty t then (⟨[]⟩ : DetectionResponse C)
            else formatPrediction f k t)),
         (texts.filter (fun t => !stripIsEmpty t)).map
           (fun t => (pyReplace t "\n" " ", k))) := by
  intro texts
  induction texts with
  | nil => rfl
  | cons text rest ih =>
    unfold batch_loop
    cases hblank : stripIsEmpty text with
    | true => simp [hblank, ih, Except.map]
    | false =>
      have hlen : ((f (pyReplace text "\n" " ") k).1.map stripLabelTag).length =
          ((f (pyReplace text "\n" " ") k).2).length := by
        rw [List.length_map]
        exact hwf _ _
      simp [hblank, ih, formatPrediction, Except.map, zipStrict_eq_zip _ _ hlen]

/-- C10: for the `/batch-detect` endpoint with the model loaded, a
non-empty batch of at most 100 texts and `k ∈ [1, 10]` produce one result
per input text in input order: a blank (empty or whitespace-only) text
yields an empty predictions list without touching the model, and every
other text is predicted individually — `predict` is invoked exactly once
per non-blank text, in input order, on the newline-cleaned text. -/
theorem batch_detect_per_text {C : Type} (f : FTModel C) (texts : List String)
    (k : Int) (hne : texts ≠ []) (hlen : texts.length ≤ 100)
    (hk1 : 1 ≤ k) (hk10 : k ≤ 10)
    (hwf : ∀ t j, ((f t j).1).length = ((f t j).2).length) :
    batch_detect_language (some f) texts k =
      (Except.ok (texts.map (fun t =>
          if stripIsEmpty t then (⟨[]⟩ : DetectionResponse C)
          else formatPrediction f k t)),
       (texts.filter (fun t => !stripIsEmpty t)).map
         (fun t => (pyReplace t "\n" " ", k))) := by
  unfold batch_detect_language
  have hempty : texts.isEmpty = false := by
    cases texts with
    | nil => exact absurd rfl hne
    | cons t ts => rfl
  have hk : ¬(k < 1 ∨ k > 10) := by omega
  have h100 : ¬(texts.length > 100) := by omega
  simp only [hempty, Bool.false_eq_true, if_false, if_neg hk, if_neg h100]
  rw [batch_loop_spec f k hwf texts]

theorem batch_detect_per_text_witness :
    batch_detect_language (some (fun _ _ => (["__label__en"], [(1 : Nat)])))
        ["hi", " "] 1 =
      (Except.ok ((["hi", " "]).map (fun t =>
          if stripIsEmpty t then (⟨[]⟩ : DetectionResponse Nat)
          else formatPrediction (fun _ _ => (["__label__en"], [(1 : Nat)])) 1 t)),
       ((["hi", " "]).filter (fun t => !stripIsEmpty t)).map
         (fun t => (pyReplace t "\n" " ", 1))) :=
  batch_detect_per_text (fun _ _ => (["__label__en"], [(1 : Nat)])) ["hi", " "] 1
    (by decide) (by decide) (by decide) (by decide) (fun _ _ => rfl)

end FasttextApi
